import Mathlib

/-!
Verification of the botconfig dashboard against its specification.

The repository is a Next.js contact dashboard.  We give a shallow
embedding of its logic:

* the route-guard middleware (redirect decisions from session presence
  and request path);
* the phone-number display formatter;
* the contact filtering pipeline (search substring + date lower bound),
  pagination, and the page-reset behaviour of the view state;
* the fetch / confirm-delete handlers, modelled as functions from the
  backend response and the current component state to the next state
  plus the list of requests issued.

Timestamps are modelled as integers (milliseconds, as compared by
JavaScript Date objects).  The three date cutoffs the component derives
from the ambient clock (start of today, one week ago, one month ago)
are an environment parameter, since they come from the nondeterministic
JavaScript Date at render time.  String operations are implemented on
the character list so concrete instances evaluate in the kernel;
toLowerCase is modelled characterwise by Char.toLower (they agree on
ASCII).
-/

/-- JavaScript s.slice / substring prefix: the first n characters.
Implemented on the character list so that concrete instances evaluate. -/
def strTake (s : String) (n : Nat) : String :=
  String.mk (s.data.take n)

/-- JavaScript s.substring(n): all but the first n characters. -/
def strDrop (s : String) (n : Nat) : String :=
  String.mk (s.data.drop n)

/-- JavaScript s.length (character count). -/
def strLength (s : String) : Nat :=
  s.data.length

/-- JavaScript s.startsWith(p). -/
def strStartsWith (s p : String) : Bool :=
  p.data.isPrefixOf s.data

/-- JavaScript s.toLowerCase(), modelled characterwise by Char.toLower
(they agree on ASCII). -/
def strToLower (s : String) : String :=
  String.mk (s.data.map Char.toLower)

/-- A contact row, as selected from the external "contacts" table. -/
structure Contact where
  id : String
  name : String
  whatsapp : String
  bot_enabled : Bool
  created_at : Int
  updated_at : Int

deriving instance DecidableEq for Contact

/-- Outcome of the middleware: either a redirect to a path, or the
pass-through response NextResponse.next(). -/
inductive GuardAction where
  | redirect (target : String)
  | next

deriving instance DecidableEq for GuardAction

/-- The route-guard middleware.  Source checks, in order:
no session and pathname starts with "/dashboard" → redirect to "/login";
session and pathname is exactly "/login" or "/" → redirect to
"/dashboard"; otherwise return the pass-through response. -/
def middleware (sessionPresent : Bool) (pathname : String) : GuardAction :=
  if sessionPresent = false ∧ strStartsWith pathname "/dashboard" then
    GuardAction.redirect "/login"
  else if sessionPresent = true ∧ (pathname = "/login" ∨ pathname = "/") then
    GuardAction.redirect "/dashboard"
  else
    GuardAction.next

/-- Digits of the raw input: JavaScript replace(/\D/g, ""). -/
def digitsOnly (number : String) : String :=
  String.mk (number.data.filter Char.isDigit)

/-- The local number: the digits with a leading country code "55"
stripped when present. -/
def localNumber (number : String) : String :=
  let d := digitsOnly number
  if strStartsWith d "55" then strDrop d 2 else d

/-- The two-digit area code: substring(0, 2) of the local number. -/
def areaCode (number : String) : String :=
  strTake (localNumber number) 2

/-- The subscriber number: substring(2) of the local number. -/
def subscriber (number : String) : String :=
  strDrop (localNumber number) 2

/-- The display formatter for phone numbers.  The source's regex
replaces on a string of digits of known length, so they amount to the
take/drop splits below ("$1 $2-$3" on (\d)(\d{4})(\d{4}),
"$1-$2" on (\d{4})(\d{4})). -/
def formatPhoneNumber (number : String) : String :=
  if number = "" then ""
  else
    let pn := subscriber number
    let formattedNumber :=
      if strLength pn = 9 then
        strTake pn 1 ++ " " ++ strTake (strDrop pn 1) 4 ++ "-" ++ strDrop pn 5
      else if strLength pn = 8 then
        strTake pn 4 ++ "-" ++ strDrop pn 4
      else
        pn
    "(" ++ areaCode number ++ ") " ++ formattedNumber

/-- JavaScript s.includes(sub): sub occurs as a contiguous substring. -/
def listContains (sub : List Char) : List Char → Bool
  | [] => sub.isEmpty
  | c :: cs => sub.isPrefixOf (c :: cs) || listContains sub cs

/-- JavaScript s.includes(sub) on strings. -/
def strIncludes (s sub : String) : Bool :=
  listContains sub.data s.data

/-- The date-range dropdown: "all" | "today" | "week" | "month". -/
inductive DateFilter where
  | all
  | today
  | week
  | month

deriving instance DecidableEq for DateFilter

/-- The three cutoff instants the component computes from the ambient
clock on each applyFilters run: today is new Date() set to midnight,
oneWeekAgo is seven days earlier, oneMonthAgo is one calendar month
earlier.  They are parameters because they come from the wall clock. -/
structure DateEnv where
  today : Int
  oneWeekAgo : Int
  oneMonthAgo : Int

/-- The search predicate from the source: the lowercased query against
the lowercased name, or the lowercased query against the raw whatsapp
string (the source does not lowercase the whatsapp field). -/
def matchesSearch (searchQuery : String) (c : Contact) : Bool :=
  let query := strToLower searchQuery
  strIncludes (strToLower c.name) query || strIncludes c.whatsapp query

/-- The date predicate each switch branch filters by: a lower bound on
updated_at, vacuous for "all" (the default branch does not filter). -/
def dateMatches (env : DateEnv) (f : DateFilter) (c : Contact) : Bool :=
  match f with
  | DateFilter.all => true
  | DateFilter.today => decide (env.today ≤ c.updated_at)
  | DateFilter.week => decide (env.oneWeekAgo ≤ c.updated_at)
  | DateFilter.month => decide (env.oneMonthAgo ≤ c.updated_at)

/-- applyFilters as in the source: start from the collection, filter by
the search predicate when the query is non-empty (JavaScript truthiness
of a string), then filter by the selected date cutoff. -/
def applyFilters (contacts : List Contact) (searchQuery : String)
    (dateFilter : DateFilter) (env : DateEnv) : List Contact :=
  let result := if searchQuery = "" then contacts
    else contacts.filter (matchesSearch searchQuery)
  match dateFilter with
  | DateFilter.today => result.filter fun c => decide (env.today ≤ c.updated_at)
  | DateFilter.week => result.filter fun c => decide (env.oneWeekAgo ≤ c.updated_at)
  | DateFilter.month => result.filter fun c => decide (env.oneMonthAgo ≤ c.updated_at)
  | DateFilter.all => result

/-- The base list applyFilters passes to the date switch. -/
def searchStage (contacts : List Contact) (searchQuery : String) : List Contact :=
  if searchQuery = "" then contacts
  else contacts.filter (matchesSearch searchQuery)

/-- Modelled from the spec's words for comparison: "case-insensitive
substring" — the needle occurs in the haystack after lowercasing both. -/
def ciSubstr (needle hay : String) : Bool :=
  strIncludes (strToLower hay) (strToLower needle)

/-- Fixed page size of the dashboard table. -/
def itemsPerPage : Nat := 10

/-- totalPages as in the source: Math.ceil(filteredContacts.length / 10),
which on naturals is (length + 9) / 10.  There is no lower bound of 1. -/
def totalPages (filtered : List Contact) : Nat :=
  (filtered.length + itemsPerPage - 1) / itemsPerPage

/-- The displayed slice: filteredContacts.slice(startIndex, endIndex)
with startIndex = (currentPage - 1) * 10 and endIndex = startIndex + 10.
Faithful to the source for currentPage at least 1. -/
def currentContacts (filtered : List Contact) (currentPage : Nat) : List Contact :=
  let startIndex := (currentPage - 1) * itemsPerPage
  let endIndex := startIndex + itemsPerPage
  (filtered.drop startIndex).take (endIndex - startIndex)

/-- The component state of the dashboard page (the useState cells). -/
structure DashState where
  contacts : List Contact
  filteredContacts : List Contact
  searchQuery : String
  dateFilter : DateFilter
  currentPage : Nat
  deleteModalOpen : Bool
  contactToDelete : Option Contact

deriving instance DecidableEq for DashState

/-- The initial component state: empty lists, empty query, "all"
filter, page 1, modal closed, nothing selected for deletion. -/
def initState : DashState :=
  DashState.mk [] [] "" DateFilter.all 1 false none

/-- The applyFilters effect: recompute filteredContacts from the three
inputs and reset the current page to 1 (the source comment: "Reset to
first page when filters change"). -/
def recomputeFilters (env : DateEnv) (s : DashState) : DashState :=
  { s with
    filteredContacts := applyFilters s.contacts s.searchQuery s.dateFilter env,
    currentPage := 1 }

/-- User-driven state changes of the view: editing the search text,
picking a date filter, a (re)fetch replacing the collection, and the
pagination buttons calling goToPage. -/
inductive Event where
  | setSearch (q : String)
  | setDateFilter (f : DateFilter)
  | setContacts (cs : List Contact)
  | goToPage (n : Nat)

/-- One step of the view: the first three events re-run the applyFilters
effect (they are exactly the dependency array of the effect in the
source); goToPage sets the current page unconditionally. -/
def step (env : DateEnv) (s : DashState) : Event → DashState
  | Event.setSearch q => recomputeFilters env { s with searchQuery := q }
  | Event.setDateFilter f => recomputeFilters env { s with dateFilter := f }
  | Event.setContacts cs => recomputeFilters env { s with contacts := cs }
  | Event.goToPage n => { s with currentPage := n }

/-- Run a sequence of view events from a state. -/
def runEvents (env : DateEnv) (s : DashState) : List Event → DashState
  | [] => s
  | e :: es => runEvents env (step env s e) es

/-- A goToPage call is in range when its argument lies in
[1, max 1 (totalPages of the current filtered list)]; every other event
is always in range. -/
def eventOk (s : DashState) : Event → Bool
  | Event.goToPage n =>
      decide (1 ≤ n) && decide (n ≤ max 1 (totalPages s.filteredContacts))
  | _ => true

/-- A trace is in range when every goToPage call in it is in range for
the state it is applied to. -/
def traceOk (env : DateEnv) (s : DashState) : List Event → Bool
  | [] => true
  | e :: es => eventOk s e && traceOk env (step env s e) es

/-- Requests issued to the external store, in order. -/
inductive Req where
  | selectAll
  | deleteById (id : String)
  | logError

deriving instance DecidableEq for Req

/-- fetchContacts: issue select-all; on error only log; on success
replace the collection with the returned rows (data || [] in the
source, so a null payload yields the empty list). -/
def fetchContacts (resp : Except Unit (Option (List Contact)))
    (s : DashState) : DashState × List Req :=
  match resp with
  | Except.error _ => (s, [Req.selectAll, Req.logError])
  | Except.ok data => ({ s with contacts := data.getD [] }, [Req.selectAll])

/-- handleConfirmDelete: with a contact selected, issue delete-by-id;
on error only log (the modal state is not touched); on success run
fetchContacts, close the modal and clear the selection. -/
def handleConfirmDelete (deleteErr : Option Unit)
    (fetchResp : Except Unit (Option (List Contact)))
    (s : DashState) : DashState × List Req :=
  match s.contactToDelete with
  | none => (s, [])
  | some c =>
    match deleteErr with
    | some _ => (s, [Req.deleteById c.id, Req.logError])
    | none =>
      let r := fetchContacts fetchResp s
      ({ r.1 with deleteModalOpen := false, contactToDelete := none },
        Req.deleteById c.id :: r.2)

/-- C1: the route guard redirects to "/login" when no session is present
and the path starts with "/dashboard"; redirects to "/dashboard" when a
session is present and the path is exactly "/login" or "/"; and passes
every other request through unchanged. -/
theorem guard_decision (sessionPresent : Bool) (pathname : String) :
    (sessionPresent = false → strStartsWith pathname "/dashboard" = true →
      middleware sessionPresent pathname = GuardAction.redirect "/login") ∧
    (sessionPresent = true → (pathname = "/login" ∨ pathname = "/") →
      middleware sessionPresent pathname = GuardAction.redirect "/dashboard") ∧
    ((sessionPresent = true ∨ strStartsWith pathname "/dashboard" = false) →
     (sessionPresent = false ∨ (pathname ≠ "/login" ∧ pathname ≠ "/")) →
      middleware sessionPresent pathname = GuardAction.next) := by
  refine ⟨?_, ?_, ?_⟩
  · intro hs hp
    simp [middleware, hs, hp]
  · intro hs hp
    simp [middleware, hs, hp]
  · intro h1 h2
    cases sessionPresent with
    | false =>
      rcases h1 with h1 | h1
      · exact absurd h1 (by simp)
      · simp [middleware, h1]
    | true =>
      rcases h2 with h2 | h2
      · exact absurd h2 (by simp)
      · simp [middleware, h2.1, h2.2]

/-- Witness for C1 at concrete requests: "/dashboard/x" without a
session redirects to "/login", "/login" with a session redirects to
"/dashboard", and "/other" passes through in both session states. -/
theorem guard_decision_witness :
    middleware false "/dashboard/x" = GuardAction.redirect "/login" ∧
    middleware true "/login" = GuardAction.redirect "/dashboard" ∧
    middleware true "/other" = GuardAction.next ∧
    middleware false "/other" = GuardAction.next :=
  ⟨(guard_decision false "/dashboard/x").1 rfl (by decide),
   (guard_decision true "/login").2.1 rfl (Or.inl rfl),
   (guard_decision true "/other").2.2 (Or.inl rfl)
     (Or.inr ⟨by decide, by decide⟩),
   (guard_decision false "/other").2.2 (Or.inr (by decide)) (Or.inl rfl)⟩

/-- C2: formatPhoneNumber returns "" on empty input; otherwise, with the
area code and subscriber number extracted as in the source, a 9-digit
subscriber yields "(AA) D DDDD-DDDD", an 8-digit one yields
"(AA) DDDD-DDDD", and any other length is passed through unformatted
after the "(AA) " prefix. -/
theorem formatPhoneNumber_cases (number : String) :
    (number = "" → formatPhoneNumber number = "") ∧
    (number ≠ "" → strLength (subscriber number) = 9 →
      formatPhoneNumber number =
        "(" ++ areaCode number ++ ") " ++
          (strTake (subscriber number) 1 ++ " " ++
            strTake (strDrop (subscriber number) 1) 4 ++ "-" ++
            strDrop (subscriber number) 5)) ∧
    (number ≠ "" → strLength (subscriber number) = 8 →
      formatPhoneNumber number =
        "(" ++ areaCode number ++ ") " ++
          (strTake (subscriber number) 4 ++ "-" ++ strDrop (subscriber number) 4)) ∧
    (number ≠ "" → strLength (subscriber number) ≠ 9 →
     strLength (subscriber number) ≠ 8 →
      formatPhoneNumber number =
        "(" ++ areaCode number ++ ") " ++ subscriber number) := by
  refine ⟨?_, ?_, ?_, ?_⟩
  · intro h
    simp [formatPhoneNumber, h]
  · intro h h9
    simp [formatPhoneNumber, h, h9]
  · intro h h8
    simp [formatPhoneNumber, h, h8]
  · intro h h9 h8
    simp [formatPhoneNumber, h, h9, h8]

/-- Witness for C2: a full Brazilian mobile number with country code is
formatted as "(11) 9 8765-4321", and an 8-digit landline without country
code as "(11) 8765-4321". -/
theorem formatPhoneNumber_cases_witness :
    formatPhoneNumber "5511987654321" =
      "(" ++ areaCode "5511987654321" ++ ") " ++
        (strTake (subscriber "5511987654321") 1 ++ " " ++
          strTake (strDrop (subscriber "5511987654321") 1) 4 ++ "-" ++
          strDrop (subscriber "5511987654321") 5) ∧
    formatPhoneNumber "5511987654321" = "(11) 9 8765-4321" ∧
    formatPhoneNumber "1187654321" = "(11) 8765-4321" :=
  ⟨(formatPhoneNumber_cases "5511987654321").2.1 (by decide) (by decide),
   by decide, by decide⟩

theorem applyFilters_eq_filter (contacts : List Contact) (searchQuery : String)
    (dateFilter : DateFilter) (env : DateEnv) :
    applyFilters contacts searchQuery dateFilter env =
      (searchStage contacts searchQuery).filter (dateMatches env dateFilter) := by
  cases dateFilter with
  | all =>
    show searchStage contacts searchQuery =
      List.filter (fun _ => true) (searchStage contacts searchQuery)
    exact (List.filter_true _).symm
  | today => rfl
  | week => rfl
  | month => rfl

theorem mem_searchStage {contacts : List Contact} {searchQuery : String}
    {c : Contact} (h : c ∈ searchStage contacts searchQuery) :
    c ∈ contacts ∧ (searchQuery ≠ "" → matchesSearch searchQuery c = true) := by
  by_cases hq : searchQuery = ""
  · simp [searchStage, hq] at h
    exact ⟨h, fun hne => absurd hq hne⟩
  · simp [searchStage, hq] at h
    exact ⟨h.1, fun _ => h.2⟩

/-- C3: applyFilters returns a sublist of the collection (a subset in
the source collection's order), and every element of the result
satisfies the search predicate when the search text is non-empty, and
the date predicate of the selected date filter. -/
theorem applyFilters_sound (env : DateEnv) (contacts : List Contact)
    (searchQuery : String) (dateFilter : DateFilter) :
    List.Sublist (applyFilters contacts searchQuery dateFilter env) contacts ∧
    ∀ c, c ∈ applyFilters contacts searchQuery dateFilter env →
      (searchQuery ≠ "" → matchesSearch searchQuery c = true) ∧
      dateMatches env dateFilter c = true := by
  rw [applyFilters_eq_filter]
  constructor
  · apply List.Sublist.trans (List.filter_sublist _)
    by_cases hq : searchQuery = ""
    · simp [searchStage, hq]
    · simp only [searchStage, hq, if_neg]
      exact List.filter_sublist _
  · intro c hc
    rw [List.mem_filter] at hc
    exact ⟨(mem_searchStage hc.1).2, hc.2⟩

/-- Witness for C3 at a concrete run: with search text "alice" and the
week filter, the surviving contact satisfies both predicates. -/
theorem applyFilters_sound_witness :
    (matchesSearch "alice"
        (Contact.mk "1" "Alice" "5511987654321" false 0 0) = true) ∧
    dateMatches (DateEnv.mk 0 (-7) (-30)) DateFilter.week
        (Contact.mk "1" "Alice" "5511987654321" false 0 0) = true :=
  have h := (applyFilters_sound (DateEnv.mk 0 (-7) (-30))
    [Contact.mk "1" "Alice" "5511987654321" false 0 0] "alice"
    DateFilter.week).2
    (Contact.mk "1" "Alice" "5511987654321" false 0 0) (by decide)
  ⟨h.1 (by decide), h.2⟩

/-- Counterexample to C4 as stated: for the contact with name "" and
whatsapp "A" and search text "A", the source predicate is false (the
lowercased query "a" is matched against the raw string "A"), while a
case-insensitive substring test on the phone field would succeed. -/
theorem matchesSearch_ci_counterexample :
    ¬ (matchesSearch "A" (Contact.mk "1" "" "A" false 0 0) =
        (ciSubstr "A" (Contact.mk "1" "" "A" false 0 0).name ||
         ciSubstr "A" (Contact.mk "1" "" "A" false 0 0).whatsapp)) := by
  decide

/-- C4 (amended): for every non-empty search text, a contact passes the
search filter iff the search text is a case-insensitive substring of the
name, or the lowercased search text is a substring of the raw phone
string; the phone comparison is case-sensitive against the lowercased
query, so it coincides with a case-insensitive substring test exactly
when the phone string has no uppercase letters (as any digit string). -/
theorem matchesSearch_ci (searchQuery : String) (c : Contact)
    (hq : searchQuery ≠ "")
    (hw : strToLower c.whatsapp = c.whatsapp) :
    matchesSearch searchQuery c =
      (ciSubstr searchQuery c.name || ciSubstr searchQuery c.whatsapp) := by
  have : ciSubstr searchQuery c.whatsapp
      = strIncludes c.whatsapp (strToLower searchQuery) := by
    rw [ciSubstr, hw]
  rw [matchesSearch, ciSubstr, this]

/-- Witness for C4 (amended) at a digit-only phone string: searching
"4321" matches the contact through its phone number. -/
theorem matchesSearch_ci_witness :
    matchesSearch "4321" (Contact.mk "1" "Alice" "5511987654321" false 0 0) =
      (ciSubstr "4321" "Alice" || ciSubstr "4321" "5511987654321") :=
  matchesSearch_ci "4321" (Contact.mk "1" "Alice" "5511987654321" false 0 0)
    (by decide) (by decide)

/-- C10: at one instant, the date filters are monotone — every contact
passing "today" passes "week", every one passing "week" passes "month",
and every one passing "month" passes "all".  The cutoff ordering
hypotheses hold at every real instant: one calendar month back is at
least 28 days back, which is earlier than 7 days back, which is earlier
than the most recent midnight. -/
theorem dateFilter_monotone (env : DateEnv) (contacts : List Contact)
    (searchQuery : String)
    (h1 : env.oneMonthAgo ≤ env.oneWeekAgo) (h2 : env.oneWeekAgo ≤ env.today) :
    (∀ c, c ∈ applyFilters contacts searchQuery DateFilter.today env →
      c ∈ applyFilters contacts searchQuery DateFilter.week env) ∧
    (∀ c, c ∈ applyFilters contacts searchQuery DateFilter.week env →
      c ∈ applyFilters contacts searchQuery DateFilter.month env) ∧
    (∀ c, c ∈ applyFilters contacts searchQuery DateFilter.month env →
      c ∈ applyFilters contacts searchQuery DateFilter.all env) := by
  simp only [applyFilters_eq_filter, List.mem_filter, dateMatches,
    decide_eq_true_eq]
  refine ⟨?_, ?_, ?_⟩
  · exact fun c hc => ⟨hc.1, le_trans h2 hc.2⟩
  · exact fun c hc => ⟨hc.1, le_trans h1 hc.2⟩
  · exact fun c hc => ⟨hc.1, trivial⟩

/-- Counterexample to C5 as stated: an empty filtered list yields 0
total pages, not the claimed minimum of 1. -/
theorem totalPages_empty_counterexample :
    totalPages ([] : List Contact) ≠ 1 := by
  decide

/-- C5 (amended): for every page number at least 1, the displayed slice
is exactly the filtered list restricted to indices
[(p-1)*10, p*10) — same entries at the shifted positions, with the
length capped accordingly — and totalPages is exactly
ceil(length / 10) with no minimum: 0 on an empty filtered list, and
otherwise the least k with length ≤ k * 10. -/
theorem pagination_spec (filtered : List Contact) (p : Nat) (hp : 1 ≤ p) :
    (currentContacts filtered p).length =
      min itemsPerPage (filtered.length - (p - 1) * itemsPerPage) ∧
    (∀ i, (currentContacts filtered p)[i]? =
      if i < itemsPerPage then filtered[(p - 1) * itemsPerPage + i]? else none) ∧
    filtered.length ≤ totalPages filtered * itemsPerPage ∧
    (filtered = [] → totalPages filtered = 0) ∧
    (filtered ≠ [] → (totalPages filtered - 1) * itemsPerPage < filtered.length) := by
  refine ⟨?_, ?_, ?_, ?_, ?_⟩
  · simp [currentContacts, List.length_take, List.length_drop]
  · intro i
    simp only [currentContacts, List.getElem?_take, List.getElem?_drop]
    have h10 : (p - 1) * itemsPerPage + itemsPerPage - (p - 1) * itemsPerPage
        = itemsPerPage := by omega
    rw [h10]
  · simp only [totalPages, itemsPerPage]
    omega
  · intro h
    subst h
    decide
  · intro h
    have hlen : 0 < filtered.length := List.length_pos.mpr h
    simp only [totalPages, itemsPerPage] at hlen ⊢
    omega

/-- Witness for C5 (amended) on a two-contact list at page 1: the slice
holds both contacts and there is exactly one page. -/
theorem pagination_spec_witness :
    (currentContacts
        [Contact.mk "1" "Alice" "5511987654321" false 0 0,
         Contact.mk "2" "Bob" "5511912345678" true 0 0] 1).length =
      min itemsPerPage
        ((List.length
          [Contact.mk "1" "Alice" "5511987654321" false 0 0,
           Contact.mk "2" "Bob" "5511912345678" true 0 0]) - (1 - 1) * itemsPerPage) ∧
    (List.length
      [Contact.mk "1" "Alice" "5511987654321" false 0 0,
       Contact.mk "2" "Bob" "5511912345678" true 0 0]) ≤
      totalPages
        [Contact.mk "1" "Alice" "5511987654321" false 0 0,
         Contact.mk "2" "Bob" "5511912345678" true 0 0] * itemsPerPage :=
  have h := pagination_spec
    [Contact.mk "1" "Alice" "5511987654321" false 0 0,
     Contact.mk "2" "Bob" "5511912345678" true 0 0] 1 (by decide)
  ⟨h.1, h.2.2.1⟩

/-- C6: each of the three filter-input changes — search text, date
filter, contact collection — recomputes the filtered view and resets
the current page to 1. -/
theorem filters_reset_page (env : DateEnv) (s : DashState) :
    (∀ q, (step env s (Event.setSearch q)).currentPage = 1 ∧
      (step env s (Event.setSearch q)).filteredContacts =
        applyFilters s.contacts q s.dateFilter env) ∧
    (∀ f, (step env s (Event.setDateFilter f)).currentPage = 1 ∧
      (step env s (Event.setDateFilter f)).filteredContacts =
        applyFilters s.contacts s.searchQuery f env) ∧
    (∀ cs, (step env s (Event.setContacts cs)).currentPage = 1 ∧
      (step env s (Event.setContacts cs)).filteredContacts =
        applyFilters cs s.searchQuery s.dateFilter env) :=
  ⟨fun _ => ⟨rfl, rfl⟩, fun _ => ⟨rfl, rfl⟩, fun _ => ⟨rfl, rfl⟩⟩

/-- Counterexample to C7 as stated: from the initial state (empty
filtered list, so the claimed range is [1, 1]), the reachable state
after the unconditional goToPage(5) has current page 5, outside the
range. -/
theorem page_invariant_counterexample :
    ¬ (1 ≤ (runEvents (DateEnv.mk 0 (-7) (-30)) initState
            [Event.goToPage 5]).currentPage ∧
       (runEvents (DateEnv.mk 0 (-7) (-30)) initState
            [Event.goToPage 5]).currentPage ≤
         max 1 (totalPages (runEvents (DateEnv.mk 0 (-7) (-30)) initState
            [Event.goToPage 5]).filteredContacts)) := by
  decide

/-- C7 (amended): the current page lies in
[1, max 1 (ceil(filtered length / 10))] in every state reachable from a
state satisfying that range by a trace whose goToPage calls are all in
range for the state they are applied to; the unconditional goToPage is
exactly the transition that can leave the range. -/
theorem page_invariant_ok (env : DateEnv) (s : DashState) (es : List Event)
    (hlo : 1 ≤ s.currentPage)
    (hhi : s.currentPage ≤ max 1 (totalPages s.filteredContacts))
    (hok : traceOk env s es = true) :
    1 ≤ (runEvents env s es).currentPage ∧
    (runEvents env s es).currentPage ≤
      max 1 (totalPages (runEvents env s es).filteredContacts) := by
  induction es generalizing s with
  | nil => exact ⟨hlo, hhi⟩
  | cons e es ih =>
    simp only [traceOk, Bool.and_eq_true] at hok
    cases e with
    | setSearch q =>
      exact ih (recomputeFilters env { s with searchQuery := q })
        (le_refl 1) (le_max_left 1 _) hok.2
    | setDateFilter f =>
      exact ih (recomputeFilters env { s with dateFilter := f })
        (le_refl 1) (le_max_left 1 _) hok.2
    | setContacts cs =>
      exact ih (recomputeFilters env { s with contacts := cs })
        (le_refl 1) (le_max_left 1 _) hok.2
    | goToPage n =>
      have hn : 1 ≤ n ∧ n ≤ max 1 (totalPages s.filteredContacts) := by
        have := hok.1
        simp only [eventOk, Bool.and_eq_true, decide_eq_true_eq] at this
        exact this
      exact ih { s with currentPage := n } hn.1 hn.2 hok.2

/-- Witness for C7 (amended): an in-range trace from the initial state —
a search edit followed by goToPage(1) — keeps the page in range. -/
theorem page_invariant_ok_witness :
    1 ≤ (runEvents (DateEnv.mk 0 (-7) (-30)) initState
          [Event.setSearch "a", Event.goToPage 1]).currentPage ∧
    (runEvents (DateEnv.mk 0 (-7) (-30)) initState
          [Event.setSearch "a", Event.goToPage 1]).currentPage ≤
      max 1 (totalPages (runEvents (DateEnv.mk 0 (-7) (-30)) initState
          [Event.setSearch "a", Event.goToPage 1]).filteredContacts) :=
  page_invariant_ok (DateEnv.mk 0 (-7) (-30)) initState
    [Event.setSearch "a", Event.goToPage 1]
    (by decide) (by decide) (by decide)

/-- C9: a failed fetch only logs — the prior in-memory collection (and
all other state) is left unchanged, with no retry (exactly one select
request) — and only a successful fetch replaces the collection. -/
theorem fetchContacts_spec (s : DashState) :
    (∀ e : Unit, fetchContacts (Except.error e) s
        = (s, [Req.selectAll, Req.logError])) ∧
    (∀ data : Option (List Contact), fetchContacts (Except.ok data) s
        = ({ s with contacts := data.getD [] }, [Req.selectAll])) :=
  ⟨fun _ => rfl, fun _ => rfl⟩

/-- Counterexample to C8 as stated: with the confirmation modal open and
contact "42" selected, a failing delete leaves deleteModalOpen true —
the modal does not close, contrary to the claim. -/
theorem confirmDelete_modal_counterexample :
    ¬ ((handleConfirmDelete (some ()) (Except.ok none)
          (DashState.mk [] [] "" DateFilter.all 1 true
            (some (Contact.mk "42" "Carol" "5511900000000" false 0 0)))).1.deleteModalOpen
        = false) := by
  decide

/-- C8 (amended): with contact c selected, a failing confirmed delete
issues the delete-by-id request and a log only, leaving the whole state
— in particular the open modal — unchanged; a successful one issues the
delete-by-id request first, refetches the collection exactly once, and
closes the modal and clears the selection. -/
theorem handleConfirmDelete_spec (s : DashState) (c : Contact)
    (fetchResp : Except Unit (Option (List Contact)))
    (h : s.contactToDelete = some c) :
    (∀ e : Unit, handleConfirmDelete (some e) fetchResp s
        = (s, [Req.deleteById c.id, Req.logError])) ∧
    (handleConfirmDelete none fetchResp s).1.deleteModalOpen = false ∧
    (handleConfirmDelete none fetchResp s).1.contactToDelete = none ∧
    (handleConfirmDelete none fetchResp s).2.count Req.selectAll = 1 ∧
    (handleConfirmDelete none fetchResp s).2.head? = some (Req.deleteById c.id) := by
  refine ⟨fun e => by simp [handleConfirmDelete, h], ?_, ?_, ?_, ?_⟩ <;>
    cases fetchResp <;>
      simp [handleConfirmDelete, h, fetchContacts, List.count_cons]

/-- Witness for C8 (amended): deleting contact id "42" with a failing
delete request leaves the state (open modal included) unchanged and
issues only the scoped delete request and a log. -/
theorem handleConfirmDelete_spec_witness :
    handleConfirmDelete (some ()) (Except.ok none)
        (DashState.mk [] [] "" DateFilter.all 1 true
          (some (Contact.mk "42" "Dave" "5511900000001" false 0 0)))
      = (DashState.mk [] [] "" DateFilter.all 1 true
          (some (Contact.mk "42" "Dave" "5511900000001" false 0 0)),
         [Req.deleteById "42", Req.logError]) :=
  (handleConfirmDelete_spec
    (DashState.mk [] [] "" DateFilter.all 1 true
      (some (Contact.mk "42" "Dave" "5511900000001" false 0 0)))
    (Contact.mk "42" "Dave" "5511900000001" false 0 0)
    (Except.ok none) rfl).1 ()
/-- Witness for C10 at a concrete instant (cutoffs 0, -7, -30, which are
ordered): a contact passing the "today" filter passes the "week"
filter. -/
theorem dateFilter_monotone_witness :
    (Contact.mk "1" "Alice" "5511987654321" false 0 0) ∈
      applyFilters [Contact.mk "1" "Alice" "5511987654321" false 0 0] ""
        DateFilter.week (DateEnv.mk 0 (-7) (-30)) :=
  (dateFilter_monotone (DateEnv.mk 0 (-7) (-30))
    [Contact.mk "1" "Alice" "5511987654321" false 0 0] ""
    (by decide) (by decide)).1
    (Contact.mk "1" "Alice" "5511987654321" false 0 0) (by decide)
